import Mathlib

/-!
Verification of the scoring/ranking pipeline of the ncaa-basketball-rankings
repository, as a shallow embedding in Lean 4.

Conventions of the embedding:
  - Machine floats of the Python source are modelled as exact rationals (ℚ);
    decimal literals such as `0.30` denote the exact decimal rational.
  - A pandas DataFrame is modelled as a `List` of rows (one structure type per
    table schema); column access is field access.
  - `pd.merge(a, b, on='Team', how='inner')` is modelled as the nested-loop
    inner join that keeps left row order (pandas semantics for inner joins on
    a key column).
  - `DataFrame.sort_values(col, ascending=False)` is modelled with
    `List.insertionSort` over the relation "greater-or-equal final score";
    the source's tie order is an implementation artifact (the spec calls it
    unspecified), and any correct descending sort realises it.
  - A value that may be absent (`NaN` checked with `pd.isna`, or a file whose
    read may raise) is modelled with `Option`.
-/

namespace FinalModelV3

/-! Model of `scripts/final_model_v3.py` (class `FinalPredictiveModelV3`). -/

/-- One row of the merged team table used by the model, after
`load_all_data` has added the `Turnover_Margin` column. -/
structure TeamRow where
  team : String
  conference : String
  adjEM : ℚ
  adjEMRank : ℤ
  adjOE : ℚ
  adjOERank : ℤ
  adjDE : ℚ
  adjDERank : ℤ
  experience : ℚ
  offTO : ℚ
  defTO : ℚ
  turnoverMargin : ℚ

/-- The hard-coded weight dictionary of `FinalPredictiveModelV3.__init__`
(insertion order preserved). There is no renormalization code in this
script. -/
def weights : List (String × ℚ) :=
  [("defensive_rating", 0.30),
   ("offensive_rating", 0.30),
   ("recent_performance", 0.20),
   ("experience", 0.15),
   ("turnover_margin", 0.05)]

/-- `calculate_defensive_rating`: percentile of teams with strictly higher
(worse) `AdjDE`, over the whole table, plus a rank-threshold bonus. -/
def calculate_defensive_rating (data : List TeamRow) (row : TeamRow) : ℚ :=
  let defPercentile : ℚ :=
    ((data.filter (fun r => row.adjDE < r.adjDE)).length : ℚ) / (data.length : ℚ) * 100
  if row.adjDERank ≤ 10 then min 100 (defPercentile + 5)
  else if row.adjDERank ≤ 25 then min 100 (defPercentile + 2)
  else defPercentile

/-- `calculate_offensive_rating`: percentile of teams with strictly lower
(worse) `AdjOE`, over the whole table, plus a rank-threshold bonus. -/
def calculate_offensive_rating (data : List TeamRow) (row : TeamRow) : ℚ :=
  let offPercentile : ℚ :=
    ((data.filter (fun r => r.adjOE < row.adjOE)).length : ℚ) / (data.length : ℚ) * 100
  if row.adjOERank ≤ 10 then min 100 (offPercentile + 4)
  else if row.adjOERank ≤ 25 then min 100 (offPercentile + 2)
  else offPercentile

/-- Step function of `calculate_recent_performance` on the team's
`AdjEM_Rank`. -/
def recentPerformanceOfRank (rank : ℤ) : ℚ :=
  if rank ≤ 5 then 98
  else if rank ≤ 10 then 93
  else if rank ≤ 25 then 85
  else if rank ≤ 50 then 75
  else if rank ≤ 75 then 65
  else if rank ≤ 100 then 55
  else 40

/-- `calculate_recent_performance`: looks the team up by name (pandas
`iloc[0]` on the filtered frame takes the first match; the empty-match case
would raise in Python and is unreachable for rows drawn from `data`). -/
def calculate_recent_performance (data : List TeamRow) (teamName : String) : ℚ :=
  ((data.find? (fun r => r.team == teamName)).map
    (fun r => recentPerformanceOfRank r.adjEMRank)).getD 0

/-- `calculate_experience`: nested rank/experience thresholds. -/
def calculate_experience (row : TeamRow) : ℚ :=
  let expValue := row.experience
  let teamRank := row.adjEMRank
  if teamRank ≤ 10 then
    if expValue ≥ 2.5 then 100 else if expValue ≥ 2.0 then 90 else 80
  else if teamRank ≤ 25 then
    if expValue ≥ 2.5 then 95 else if expValue ≥ 2.0 then 80 else 70
  else if teamRank ≤ 50 then
    if expValue ≥ 2.5 then 90 else if expValue ≥ 2.0 then 70
    else if expValue ≥ 1.5 then 55 else 40
  else
    if expValue ≥ 3.0 then 85 else if expValue ≥ 2.5 then 70
    else if expValue ≥ 2.0 then 50 else 20

/-- `calculate_turnover_margin`: percentile of the `Turnover_Margin` column
(strictly smaller margins count as worse), a bonus clipped at 100 for
margins above 3.0/5.0, and a penalty clipped at 0 for margins below -3.0. -/
def calculate_turnover_margin (data : List TeamRow) (row : TeamRow) : ℚ :=
  let margin := row.turnoverMargin
  let marginPercentile : ℚ :=
    ((data.filter (fun r => r.turnoverMargin < margin)).length : ℚ) /
      (data.length : ℚ) * 100
  let withBonus :=
    if margin > 5.0 then min 100 (marginPercentile + 10)
    else if margin > 3.0 then min 100 (marginPercentile + 5)
    else marginPercentile
  if margin < -3.0 then max 0 (withBonus - 10) else withBonus

/-- `calculate_total_score`: the fixed-weight linear combination, written in
the insertion order of the `weights` dictionary. -/
def calculate_total_score (data : List TeamRow) (row : TeamRow) : ℚ :=
  0.30 * calculate_defensive_rating data row +
  0.30 * calculate_offensive_rating data row +
  0.20 * calculate_recent_performance data row.team +
  0.15 * calculate_experience row +
  0.05 * calculate_turnover_margin data row

/-- One row of the `results` list built inside `generate_rankings`, before
the sort and the rank columns. -/
structure ScoredRow where
  team : String
  conference : String
  finalScore : ℚ
  experience : ℚ
  offTO : ℚ
  defTO : ℚ
  turnoverMargin : ℚ
  kenpomRank : ℤ
  adjEM : ℚ
  adjOE : ℚ
  adjDE : ℚ
  adjOERank : ℤ
  adjDERank : ℤ
  defensiveRatingScore : ℚ
  offensiveRatingScore : ℚ
  recentPerformanceScore : ℚ
  experienceScore : ℚ
  turnoverMarginScore : ℚ

/-- A row of `results_df` after `Final_Rank` and `Rank_Change` are added. -/
structure RankedRow where
  row : ScoredRow
  finalRank : ℤ
  rankChange : ℤ

/-- The `result` dictionary built for one team inside `generate_rankings`. -/
def scoreRow (data : List TeamRow) (row : TeamRow) : ScoredRow :=
  { team := row.team
    conference := row.conference
    finalScore := calculate_total_score data row
    experience := row.experience
    offTO := row.offTO
    defTO := row.defTO
    turnoverMargin := row.turnoverMargin
    kenpomRank := row.adjEMRank
    adjEM := row.adjEM
    adjOE := row.adjOE
    adjDE := row.adjDE
    adjOERank := row.adjOERank
    adjDERank := row.adjDERank
    defensiveRatingScore := calculate_defensive_rating data row
    offensiveRatingScore := calculate_offensive_rating data row
    recentPerformanceScore := calculate_recent_performance data row.team
    experienceScore := calculate_experience row
    turnoverMarginScore := calculate_turnover_margin data row }

/-- Descending order on `Final_Score`, the sort key of
`sort_values('Final_Score', ascending=False)`. -/
def scoreGE (a b : ScoredRow) : Prop := b.finalScore ≤ a.finalScore

instance : DecidableRel scoreGE :=
  fun a b => inferInstanceAs (Decidable (b.finalScore ≤ a.finalScore))

instance : IsTotal ScoredRow scoreGE := ⟨fun a b => le_total b.finalScore a.finalScore⟩

instance : IsTrans ScoredRow scoreGE := ⟨fun _ _ _ h1 h2 => le_trans h2 h1⟩

/-- `generate_rankings`: score every row, sort by `Final_Score` descending,
then add `Final_Rank = 1, 2, ...` by position and
`Rank_Change = KenPom_Rank - Final_Rank`. -/
def generate_rankings (data : List TeamRow) : List RankedRow :=
  let sorted := List.insertionSort scoreGE (data.map (scoreRow data))
  sorted.enum.map (fun p =>
    { row := p.2
      finalRank := (p.1 : ℤ) + 1
      rankChange := p.2.kenpomRank - ((p.1 : ℤ) + 1) })

/-- Row of `kenpom_rankings_latest.csv` (the columns this model reads). -/
structure RankingsRow where
  team : String
  conference : String
  adjEM : ℚ
  adjEMRank : ℤ
  adjOE : ℚ
  adjOERank : ℤ
  adjDE : ℚ
  adjDERank : ℤ

/-- Row of `kenpom_height_experience_latest.csv` (the column this model
reads). -/
structure PersonnelRow where
  team : String
  experience : ℚ

/-- Row of `kenpom_four_factors_latest.csv` (the columns this model reads). -/
structure FourFactorsRow where
  team : String
  offTO : ℚ
  defTO : ℚ

/-- `load_all_data`: two inner joins on `Team` followed by the derived column
`Turnover_Margin = Def-TO% - Off-TO%`. The suffix/duplicate-column cleanup
of the source is a pandas artifact; the modelled schemas have no name
collisions. The merged row built from one row of each table: -/
def joinRow (r : RankingsRow) (p : PersonnelRow) (f : FourFactorsRow) : TeamRow :=
  { team := r.team
    conference := r.conference
    adjEM := r.adjEM
    adjEMRank := r.adjEMRank
    adjOE := r.adjOE
    adjOERank := r.adjOERank
    adjDE := r.adjDE
    adjDERank := r.adjDERank
    experience := p.experience
    offTO := f.offTO
    defTO := f.defTO
    turnoverMargin := f.defTO - f.offTO }

def load_all_data (rankings : List RankingsRow) (personnel : List PersonnelRow)
    (fourFactors : List FourFactorsRow) : List TeamRow :=
  (rankings.flatMap (fun r =>
    (personnel.filter (fun p => p.team == r.team)).map (fun p => (r, p)))).flatMap
    (fun rp =>
      (fourFactors.filter (fun f => f.team == rp.1.team)).map (fun f =>
        joinRow rp.1 rp.2 f))

/-- The whole scripted run on fixed input tables: load, score, rank. -/
def run_pipeline (rankings : List RankingsRow) (personnel : List PersonnelRow)
    (fourFactors : List FourFactorsRow) : List RankedRow :=
  generate_rankings (load_all_data rankings personnel fourFactors)

end FinalModelV3

namespace FinalPredictiveModel

/-! Model of `scripts/final_predictive_model.py` (class
`FinalPredictiveModel`): the six-factor variant with star power and pace
control. -/

/-- One row of the merged team table (rankings + personnel + tempo). The
tempo rank column survives the merge under one of two possible names; the
modelled schema carries it as a single field, which corresponds to the
branch of `calculate_pace_control` where the column exists. -/
structure TeamRow where
  team : String
  conference : String
  adjEM : ℚ
  adjEMRank : ℤ
  adjOE : ℚ
  adjOERank : ℤ
  adjDE : ℚ
  adjDERank : ℤ
  experience : ℚ
  tempoRank : ℤ

/-- The hard-coded weight dictionary of `FinalPredictiveModel.__init__`
(insertion order preserved). No renormalization code in this script. -/
def weights : List (String × ℚ) :=
  [("defensive_rating", 0.30),
   ("offensive_rating", 0.25),
   ("recent_performance", 0.20),
   ("experience", 0.15),
   ("star_power", 0.05),
   ("pace_control", 0.05)]

/-- `calculate_defensive_rating` of `final_predictive_model.py`. -/
def calculate_defensive_rating (data : List TeamRow) (row : TeamRow) : ℚ :=
  let defPercentile : ℚ :=
    ((data.filter (fun r => row.adjDE < r.adjDE)).length : ℚ) / (data.length : ℚ) * 100
  if row.adjDERank ≤ 10 then min 100 (defPercentile + 5)
  else if row.adjDERank ≤ 25 then min 100 (defPercentile + 2)
  else defPercentile

/-- `calculate_offensive_rating` of `final_predictive_model.py`. -/
def calculate_offensive_rating (data : List TeamRow) (row : TeamRow) : ℚ :=
  let offPercentile : ℚ :=
    ((data.filter (fun r => r.adjOE < row.adjOE)).length : ℚ) / (data.length : ℚ) * 100
  if row.adjOERank ≤ 10 then min 100 (offPercentile + 4)
  else if row.adjOERank ≤ 25 then min 100 (offPercentile + 2)
  else offPercentile

/-- Step function of this model's `calculate_recent_performance` (eight
buckets, down to 35). -/
def recentPerformanceOfRank (rank : ℤ) : ℚ :=
  if rank ≤ 5 then 98
  else if rank ≤ 10 then 93
  else if rank ≤ 25 then 85
  else if rank ≤ 50 then 75
  else if rank ≤ 75 then 65
  else if rank ≤ 100 then 55
  else if rank ≤ 150 then 45
  else 35

/-- `calculate_recent_performance` (name lookup, first match). -/
def calculate_recent_performance (data : List TeamRow) (teamName : String) : ℚ :=
  ((data.find? (fun r => r.team == teamName)).map
    (fun r => recentPerformanceOfRank r.adjEMRank)).getD 0

/-- `calculate_experience`: experience percentile over the whole table, a
bonus clipped at 100 for veteran teams, then a penalty clipped at 0 for
young teams. -/
def calculate_experience (data : List TeamRow) (row : TeamRow) : ℚ :=
  let expValue := row.experience
  let expPercentile : ℚ :=
    ((data.filter (fun r => r.experience < expValue)).length : ℚ) /
      (data.length : ℚ) * 100
  let withBonus :=
    if expValue ≥ 3.0 then min 100 (expPercentile + 10)
    else if expValue ≥ 2.5 then min 100 (expPercentile + 5)
    else expPercentile
  if expValue < 1.5 then max 0 (withBonus - 10)
  else if expValue < 2.0 then max 0 (withBonus - 5)
  else withBonus

/-- `calculate_star_power`: count of rows of `kenpom_player_stats_latest.csv`
(modelled by their `Team` column) belonging to the team. The zero-star
fallback looks the team up in the merged table (unreachable failure modelled
as 0, Python would raise). -/
def calculate_star_power (playerStatsTeams : List String) (data : List TeamRow)
    (teamName : String) : ℚ :=
  let starCount := (playerStatsTeams.filter (fun t => t == teamName)).length
  if starCount ≥ 3 then 100
  else if starCount = 2 then 85
  else if starCount = 1 then 70
  else
    ((data.find? (fun r => r.team == teamName)).map
      (fun r => if r.adjEMRank ≤ 50 then (50 : ℚ) else 30)).getD 0

/-- `calculate_pace_control`: extremes of the tempo rank score highest, plus
an elite-team bonus clipped at 100. -/
def calculate_pace_control (row : TeamRow) : ℚ :=
  let tempoRank := row.tempoRank
  let paceScore : ℚ :=
    if tempoRank ≤ 30 ∨ tempoRank ≥ 335 then 90
    else if tempoRank ≤ 60 ∨ tempoRank ≥ 305 then 75
    else if tempoRank ≤ 100 ∨ tempoRank ≥ 265 then 60
    else 45
  if row.adjEMRank ≤ 25 then min 100 (paceScore + 10) else paceScore

/-- `calculate_total_score` of `final_predictive_model.py`, in the insertion
order of its `weights` dictionary. -/
def calculate_total_score (playerStatsTeams : List String) (data : List TeamRow)
    (row : TeamRow) : ℚ :=
  0.30 * calculate_defensive_rating data row +
  0.25 * calculate_offensive_rating data row +
  0.20 * calculate_recent_performance data row.team +
  0.15 * calculate_experience data row +
  0.05 * calculate_star_power playerStatsTeams data row.team +
  0.05 * calculate_pace_control row

/-- One row of the `results` list of this model's `generate_rankings`. -/
structure ScoredRow where
  team : String
  conference : String
  finalScore : ℚ
  experience : ℚ
  starCount : ℕ
  tempoRank : ℤ
  kenpomRank : ℤ
  adjEM : ℚ
  adjOE : ℚ
  adjDE : ℚ
  adjOERank : ℤ
  adjDERank : ℤ
  defensiveRatingScore : ℚ
  offensiveRatingScore : ℚ
  recentPerformanceScore : ℚ
  experienceScore : ℚ
  starPowerScore : ℚ
  paceControlScore : ℚ

/-- A row of this model's `results_df` after the rank columns are added. -/
structure RankedRow where
  row : ScoredRow
  finalRank : ℤ
  rankChange : ℤ

/-- The `result` dictionary built for one team. -/
def scoreRow (playerStatsTeams : List String) (data : List TeamRow)
    (row : TeamRow) : ScoredRow :=
  { team := row.team
    conference := row.conference
    finalScore := calculate_total_score playerStatsTeams data row
    experience := row.experience
    starCount := (playerStatsTeams.filter (fun t => t == row.team)).length
    tempoRank := row.tempoRank
    kenpomRank := row.adjEMRank
    adjEM := row.adjEM
    adjOE := row.adjOE
    adjDE := row.adjDE
    adjOERank := row.adjOERank
    adjDERank := row.adjDERank
    defensiveRatingScore := calculate_defensive_rating data row
    offensiveRatingScore := calculate_offensive_rating data row
    recentPerformanceScore := calculate_recent_performance data row.team
    experienceScore := calculate_experience data row
    starPowerScore := calculate_star_power playerStatsTeams data row.team
    paceControlScore := calculate_pace_control row }

/-- Descending order on `Final_Score` for this model's sort. -/
def scoreGE (a b : ScoredRow) : Prop := b.finalScore ≤ a.finalScore

instance : DecidableRel scoreGE :=
  fun a b => inferInstanceAs (Decidable (b.finalScore ≤ a.finalScore))

instance : IsTotal ScoredRow scoreGE := ⟨fun a b => le_total b.finalScore a.finalScore⟩

instance : IsTrans ScoredRow scoreGE := ⟨fun _ _ _ h1 h2 => le_trans h2 h1⟩

/-- `generate_rankings` of `final_predictive_model.py`: score, sort by
`Final_Score` descending, add `Final_Rank` by position and
`Rank_Change = KenPom_Rank - Final_Rank`. -/
def generate_rankings (playerStatsTeams : List String) (data : List TeamRow) :
    List RankedRow :=
  let sorted := List.insertionSort scoreGE (data.map (scoreRow playerStatsTeams data))
  sorted.enum.map (fun p =>
    { row := p.2
      finalRank := (p.1 : ℤ) + 1
      rankChange := p.2.kenpomRank - ((p.1 : ℤ) + 1) })

end FinalPredictiveModel

namespace PredictiveModel

/-! Model of `scripts/predictive_model.py` (class
`PredictivePowerRankingModel`): weight initialization with renormalization,
and the data loader with optional game files. -/

/-- The default weight dictionary (insertion order preserved). -/
def defaultWeights : List (String × ℚ) :=
  [("adjusted_efficiency", 0.45),
   ("recent_performance", 0.20),
   ("consistency", 0.10),
   ("pace_flexibility", 0.10),
   ("experience", 0.05),
   ("altitude_travel", 0.05),
   ("injury_adjustment", 0.05)]

/-- Sum of the values of a weight dictionary. -/
def weightsSum (ws : List (String × ℚ)) : ℚ := (ws.map Prod.snd).sum

/-- `__init__`: take the caller's weights or the defaults, then renormalize
each weight by the total, but only when the total differs from 1.0 by more
than 0.001. -/
def initWeights (custom : Option (List (String × ℚ))) : List (String × ℚ) :=
  let ws := custom.getD defaultWeights
  let total := weightsSum ws
  if |total - 1| > 0.001 then ws.map (fun p => (p.1, p.2 / total)) else ws

/-- Row of a loaded CSV table, reduced to its `Team` key (the loader claims
concern only which files must exist, not the columns). -/
structure GameRow where
  team : String

/-- The state of the model after `load_data`: three required tables and two
optional game tables that may be recorded as absent. -/
structure LoadedData (α β γ : Type) where
  rankings : List α
  fourFactors : List β
  tempoStats : List γ
  games : Option (List GameRow)
  upsets : Option (List GameRow)

/-- `load_data`: the three `read_csv` calls outside the `try` block fail the
whole load when their file is missing (modelled as `none` input). The two
game files are read inside one `try/except`: if either is missing, both
`games` and `upsets` are recorded as `None` and the load still completes. -/
def load_data {α β γ : Type} (rankings : Option (List α))
    (fourFactors : Option (List β)) (tempoStats : Option (List γ))
    (games upsets : Option (List GameRow)) :
    Option (LoadedData α β γ) :=
  match rankings, fourFactors, tempoStats with
  | some r, some f, some t =>
    let opt : Option (List GameRow) × Option (List GameRow) :=
      match games, upsets with
      | some g, some u => (some g, some u)
      | _, _ => (none, none)
    some { rankings := r, fourFactors := f, tempoStats := t
           games := opt.1, upsets := opt.2 }
  | _, _, _ => none

end PredictiveModel

namespace WeightedModelV2

/-! Model of `scripts/weighted_model_v2.py` (class
`WeightedPowerRankingModel`): weight initialization and the momentum score
(the one function of this script cited for determinism; despite its comment
about "randomness", it is a pure arithmetic function of the table). -/

/-- The default weight dictionary (insertion order preserved). -/
def defaultWeights : List (String × ℚ) :=
  [("offensive_efficiency", 0.35),
   ("defensive_efficiency", 0.35),
   ("momentum", 0.15),
   ("schedule_strength", 0.10),
   ("dominance", 0.05)]

/-- `__init__`: same renormalize-beyond-tolerance logic as
`predictive_model.py`. -/
def initWeights (custom : Option (List (String × ℚ))) : List (String × ℚ) :=
  let ws := custom.getD defaultWeights
  let total := PredictiveModel.weightsSum ws
  if |total - 1| > 0.001 then ws.map (fun p => (p.1, p.2 / total)) else ws

/-- The columns of `kenpom_rankings_latest.csv` that
`calculate_momentum_score` reads. -/
structure RankingsRow where
  team : String
  adjEMRank : ℤ

/-- `calculate_momentum_score`: rank converted to a 0-100 scale and affinely
compressed to 20-100; teams not found in the table score 50. -/
def calculate_momentum_score (rankings : List RankingsRow) (teamName : String) : ℚ :=
  ((rankings.find? (fun r => r.team == teamName)).map (fun row =>
    let totalTeams : ℚ := (rankings.length : ℚ)
    let momentumScore := 100 * (totalTeams - (row.adjEMRank : ℚ)) / (totalTeams - 1)
    momentumScore * 0.8 + 20)).getD 50

end WeightedModelV2

namespace HybridModel

/-! Weight initialization of `scripts/hybrid_model.py` (class
`HybridPowerRankingModel`). -/

/-- `__init__`: two weights, renormalized by their total only when the total
differs from 1.0 by more than 0.001. -/
def initWeights (baseWeight resultsWeight : ℚ) : ℚ × ℚ :=
  let total := baseWeight + resultsWeight
  if |total - 1| > 0.001 then (baseWeight / total, resultsWeight / total)
  else (baseWeight, resultsWeight)

end HybridModel

namespace OtherModelWeights

/-! The hard-coded weight dictionaries of the remaining model scripts, none
of which contains renormalization code. -/

/-- `scripts/defense_focused_model.py`. -/
def defenseFocused : List (String × ℚ) :=
  [("defensive_rating", 0.30), ("offensive_rating", 0.20),
   ("recent_performance", 0.20), ("consistency", 0.15),
   ("experience", 0.10), ("pace_control", 0.05)]

/-- `scripts/experience_enhanced_model.py`. -/
def experienceEnhanced : List (String × ℚ) :=
  [("defensive_rating", 0.25), ("offensive_rating", 0.20),
   ("experience", 0.20), ("recent_performance", 0.15),
   ("consistency", 0.10), ("roster_continuity", 0.05), ("bench_depth", 0.05)]

/-- `scripts/final_model_v2.py`. -/
def finalModelV2 : List (String × ℚ) :=
  [("defensive_rating", 0.30), ("offensive_rating", 0.30),
   ("recent_performance", 0.20), ("experience", 0.15), ("pace_control", 0.05)]

/-- `scripts/final_predictive_model_clean.py`. -/
def finalPredictiveClean : List (String × ℚ) :=
  [("defensive_rating", 0.30), ("offensive_rating", 0.30),
   ("recent_performance", 0.20), ("experience", 0.15), ("pace_control", 0.05)]

end OtherModelWeights

/-- The five era buckets used by both SWISH calculators. -/
inductive Era where
  | preMerger
  | earlyModern
  | goldenAge
  | postJordan
  | modern
deriving DecidableEq, Repr

/-- Python's `needle in haystack` substring test on strings, via character
lists: `charsPrefix n h` is "n is a prefix of h". -/
def charsPrefix : List Char → List Char → Bool
  | [], _ => true
  | _ :: _, [] => false
  | a :: as, b :: bs => a == b && charsPrefix as bs

/-- `charsContain needle hay` is "needle occurs contiguously in hay"
(true for the empty needle, as in Python). -/
def charsContain (needle : List Char) : List Char → Bool
  | [] => charsPrefix needle []
  | c :: t => charsPrefix needle (c :: t) || charsContain needle t

/-- Python's `sub in s` for strings. -/
def strContains (s sub : String) : Bool := charsContain sub.toList s.toList

namespace SwishV2

/-! Model of `swish_score_calculator_v2.py` (class `SwishScoreCalculatorV2`,
version string "2.1"). -/

/-- The raw statistic names passed to `calculate_era_adjusted_stat` by this
class (`'ppg'`, `'rpg'`, `'apg'`, `'stl'`, `'blk'`; the percentage branch of
that function is never reached by these callers). -/
inductive StatName where
  | ppg
  | rpg
  | apg
  | stl
  | blk
deriving DecidableEq, Repr

/-- The `era_stats` averages (`avg_ppg`, ..., `avg_blk`) per era. -/
def eraAvg (s : StatName) (e : Era) : ℚ :=
  match s, e with
  | .ppg, .preMerger => 19.8
  | .ppg, .earlyModern => 18.4
  | .ppg, .goldenAge => 16.8
  | .ppg, .postJordan => 15.2
  | .ppg, .modern => 16.5
  | .rpg, .preMerger => 5.9
  | .rpg, .earlyModern => 5.2
  | .rpg, .goldenAge => 4.8
  | .rpg, .postJordan => 4.4
  | .rpg, .modern => 4.5
  | .apg, .preMerger => 3.2
  | .apg, .earlyModern => 3.8
  | .apg, .goldenAge => 3.5
  | .apg, .postJordan => 3.3
  | .apg, .modern => 3.6
  | .stl, .preMerger => 1.2
  | .stl, .earlyModern => 1.5
  | .stl, .goldenAge => 1.4
  | .stl, .postJordan => 1.3
  | .stl, .modern => 1.2
  | .blk, .preMerger => 0.8
  | .blk, .earlyModern => 0.7
  | .blk, .goldenAge => 0.6
  | .blk, .postJordan => 0.5
  | .blk, .modern => 0.5

/-- One row of the player table, with the `era` column already assigned.
A raw value that pandas would report as `NaN` is modelled as 0 where the
source itself folds `NaN` into 0 (`calculate_era_adjusted_stat`), and as
`Option` for the career-year columns that the source tests with `pd.isna`. -/
structure Player where
  name : String
  careerStart : Option ℚ
  careerEnd : Option ℚ
  championships : ℚ
  era : Era
  peakPpg : ℚ
  careerPer : ℚ
  careerGames : ℚ
  careerWs : ℚ
  mvpShares : ℚ
  careerVorp : ℚ
  careerPpg : ℚ
  careerRpg : ℚ
  careerApg : ℚ
  primaryPosition : String
  finalsMvp : ℚ
  playoffPpg : ℚ
  playoffG : ℚ
  mvp : ℚ
  allNbaFirst : ℚ
  allNbaSecond : ℚ
  allNbaThird : ℚ
  allStar : ℚ
  dpoy : ℚ
  allDefensiveFirst : ℚ
  allDefensiveSecond : ℚ
  stealsLeader : ℚ
  blocksLeader : ℚ
  scoringTitles : ℚ
  careerTsPct : ℚ
  careerStlPg : ℚ
  careerBlkPg : ℚ
  careerDrbPg : ℚ
  seasonsPlayed : ℚ
  careerMpg : ℚ

/-- The nested `get_player_era` of `assign_player_eras`: career midpoint
against fixed thresholds when both career years are present, otherwise
hard-coded substring name lists, with `'modern'` as the final default
(the championship branch of the source also returns `'modern'`). -/
def get_player_era (row : Player) : Era :=
  match row.careerStart, row.careerEnd with
  | some startYear, some endYear =>
    let careerMid := (startYear + endYear) / 2
    if careerMid < 1976 then .preMerger
    else if careerMid < 1985 then .earlyModern
    else if careerMid < 2000 then .goldenAge
    else if careerMid < 2010 then .postJordan
    else .modern
  | _, _ =>
    if ["Russell", "Chamberlain", "Robertson", "West", "Baylor"].any
        (fun n => strContains row.name n) then .preMerger
    else if ["Kareem", "Erving", "Moses"].any (fun n => strContains row.name n) then
      .earlyModern
    else if ["Jordan", "Magic", "Bird", "Hakeem", "Barkley", "Malone", "Stockton"].any
        (fun n => strContains row.name n) then .goldenAge
    else if ["Duncan", "Kobe", "Shaq", "Garnett", "Dirk", "Nash", "Iverson"].any
        (fun n => strContains row.name n) then .postJordan
    else if ["LeBron", "Durant", "Curry", "Giannis", "Kawhi", "Harden", "Chris Paul"].any
        (fun n => strContains row.name n) then .modern
    else .modern

/-- `assign_player_eras`: writes the `era` column. -/
def assign_player_eras (players : List Player) : List Player :=
  players.map (fun p => { p with era := get_player_era p })

/-- `calculate_era_adjusted_stat` for the statistic names used by this
class. A zero (or missing) raw stat scores 0; otherwise the ratio to the era
average is rescaled and clipped into [0, 100]. -/
def calculate_era_adjusted_stat (playerStat : ℚ) (statName : StatName) (era : Era) : ℚ :=
  if playerStat = 0 then 0
  else
    let eraAverage := eraAvg statName era
    let eraMultiplier := if eraAverage > 0 then playerStat / eraAverage else 1
    let score :=
      match statName with
      | .ppg | .rpg | .apg => min 100 ((eraMultiplier - 1) * 150)
      | .stl | .blk => min 100 ((eraMultiplier - 1) * 100)
    max 0 score

/-- The body of `calculate_peak_dominance` for one player. -/
def peakDominance (p : Player) : ℚ :=
  let peakPpgAdjusted := calculate_era_adjusted_stat p.peakPpg .ppg p.era
  let perScore := min 100 ((p.careerPer - 15) / 16 * 100)
  let wsPer48 := if p.careerGames > 0 then p.careerWs / p.careerGames * 48 else 0
  let ws48Score := min 100 (wsPer48 / 0.250 * 100)
  let mvpShareScore := min 100 (p.mvpShares / 5.0 * 100)
  0.30 * peakPpgAdjusted + 0.30 * perScore + 0.25 * ws48Score + 0.15 * mvpShareScore

/-- The body of `calculate_career_value` for one player. -/
def careerValue (p : Player) : ℚ :=
  let wsScore := min 100 (p.careerWs / 250.0 * 100)
  let vorpScore := min 100 (p.careerVorp / 100.0 * 100)
  let ppgAdjusted := calculate_era_adjusted_stat p.careerPpg .ppg p.era
  let rpgAdjusted := calculate_era_adjusted_stat p.careerRpg .rpg p.era
  let apgAdjusted := calculate_era_adjusted_stat p.careerApg .apg p.era
  let statsScore :=
    if p.primaryPosition ∈ ["C", "F-C", "C-F"] then
      ppgAdjusted * 0.35 + rpgAdjusted * 0.45 + apgAdjusted * 0.20
    else if p.primaryPosition ∈ ["G", "G-F", "F-G"] then
      ppgAdjusted * 0.40 + rpgAdjusted * 0.20 + apgAdjusted * 0.40
    else
      ppgAdjusted * 0.40 + rpgAdjusted * 0.35 + apgAdjusted * 0.25
  0.40 * wsScore + 0.35 * vorpScore + 0.25 * statsScore

/-- The league-size multiplier applied to championships per era. -/
def championshipEraMultiplier (e : Era) : ℚ :=
  match e with
  | .preMerger => 0.7
  | .earlyModern => 0.8
  | .goldenAge => 0.9
  | .postJordan => 1.0
  | .modern => 1.0

/-- The body of `calculate_championship_impact` for one player. -/
def championshipImpact (p : Player) : ℚ :=
  let adjustedRings := p.championships * championshipEraMultiplier p.era
  let ringsScore := min 100 (adjustedRings / 5.0 * 100)
  let fmvpScore := min 100 (p.finalsMvp / 3.0 * 100)
  let playoffElevation := if p.careerPpg > 0 then p.playoffPpg / p.careerPpg else 1.0
  let elevationScore :=
    if playoffElevation > 1.10 then min 100 ((playoffElevation - 1) * 500) else 0
  let playoffExpScore := min 100 (p.playoffG / 220.0 * 100)
  0.35 * ringsScore + 0.30 * fmvpScore + 0.20 * elevationScore + 0.15 * playoffExpScore

/-- The era-dependent All-Star target of `calculate_individual_honors`. -/
def eraStarTarget (e : Era) : ℚ :=
  match e with
  | .preMerger => 10
  | .earlyModern => 12
  | .goldenAge => 13
  | .postJordan => 14
  | .modern => 15

/-- The body of `calculate_individual_honors` for one player. -/
def individualHonors (p : Player) : ℚ :=
  let mvpScore := min 100 (p.mvp / 4.0 * 100)
  let allNbaPoints := p.allNbaFirst * 5 + p.allNbaSecond * 3 + p.allNbaThird * 1
  let allNbaScore := min 100 (allNbaPoints / 50.0 * 100)
  let allStarScore := min 100 (p.allStar / eraStarTarget p.era * 100)
  let defensivePoints :=
    p.dpoy * 15 + p.allDefensiveFirst * 5 + p.allDefensiveSecond * 2 +
      p.stealsLeader * 3 + p.blocksLeader * 3
  let defensiveScore := min 100 (defensivePoints / 50.0 * 100)
  let scoringScore := min 100 (p.scoringTitles / 7.0 * 100)
  0.25 * mvpScore + 0.25 * allNbaScore + 0.15 * allStarScore +
    0.20 * defensiveScore + 0.15 * scoringScore

/-- The era-average true-shooting table of
`calculate_statistical_excellence`. -/
def eraAvgTs (e : Era) : ℚ :=
  match e with
  | .preMerger => 0.470
  | .earlyModern => 0.520
  | .goldenAge => 0.535
  | .postJordan => 0.525
  | .modern => 0.560

/-- The body of `calculate_statistical_excellence` for one player. -/
def statisticalExcellence (p : Player) : ℚ :=
  let ppgScore := calculate_era_adjusted_stat p.careerPpg .ppg p.era
  let tsVsEra := (p.careerTsPct - eraAvgTs p.era) * 1000
  let efficiencyScore := min 100 (max 0 (50 + tsVsEra))
  let stlScore := calculate_era_adjusted_stat p.careerStlPg .stl p.era
  let blkScore := calculate_era_adjusted_stat p.careerBlkPg .blk p.era
  let drbTarget : ℚ :=
    if p.primaryPosition.contains 'C' then 7.0
    else if p.primaryPosition.contains 'G' then 3.0
    else 5.0
  let drbScore := min 100 (p.careerDrbPg / drbTarget * 100)
  let defensiveStatScore := stlScore * 0.4 + blkScore * 0.4 + drbScore * 0.2
  let perScore := min 100 ((p.careerPer - 15) / 12 * 100)
  0.25 * ppgScore + 0.25 * efficiencyScore + 0.25 * defensiveStatScore + 0.25 * perScore

/-- The body of `calculate_longevity` for one player. -/
def longevity (p : Player) : ℚ :=
  let seasonsScore := min 100 (p.seasonsPlayed / 18.0 * 100)
  let gamesScore := min 100 (p.careerGames / 1300.0 * 100)
  let qualityRatio := if p.seasonsPlayed > 0 then p.allStar / p.seasonsPlayed else 0
  let qualityScore := min 100 (qualityRatio * 120)
  let mpgScore := min 100 (p.careerMpg / 36.0 * 100)
  0.30 * seasonsScore + 0.30 * gamesScore + 0.25 * qualityScore + 0.15 * mpgScore

/-- A player row after the six component columns and `SWISH_Score` are
added; the original columns are the `base` sub-row. -/
structure ScoredPlayer where
  base : Player
  peakDominanceScore : ℚ
  careerValueScore : ℚ
  championshipImpactScore : ℚ
  individualHonorsScore : ℚ
  statisticalExcellenceScore : ℚ
  longevityScore : ℚ
  swishScore : ℚ

/-- A player row after `GOAT_Rank` and `swish_version` are also added. -/
structure RankedPlayer where
  scored : ScoredPlayer
  goatRank : ℤ
  swishVersion : String

/-- The component columns and the weighted `SWISH_Score` (v2.1 weights:
peak 20%, career 20%, honors 15%, championships 20%, stats 15%,
longevity 10%) for one player. -/
def scorePlayer (p : Player) : ScoredPlayer :=
  { base := p
    peakDominanceScore := peakDominance p
    careerValueScore := careerValue p
    championshipImpactScore := championshipImpact p
    individualHonorsScore := individualHonors p
    statisticalExcellenceScore := statisticalExcellence p
    longevityScore := longevity p
    swishScore :=
      0.20 * peakDominance p + 0.20 * careerValue p + 0.15 * individualHonors p +
        0.20 * championshipImpact p + 0.15 * statisticalExcellence p +
        0.10 * longevity p }

/-- Descending order on `SWISH_Score`, the key of
`sort_values('SWISH_Score', ascending=False)`. -/
def swishGE (a b : ScoredPlayer) : Prop := b.swishScore ≤ a.swishScore

instance : DecidableRel swishGE :=
  fun a b => inferInstanceAs (Decidable (b.swishScore ≤ a.swishScore))

instance : IsTotal ScoredPlayer swishGE := ⟨fun a b => le_total b.swishScore a.swishScore⟩

instance : IsTrans ScoredPlayer swishGE := ⟨fun _ _ _ h1 h2 => le_trans h2 h1⟩

/-- `calculate_swish_score`: add the six component columns and
`SWISH_Score`, sort by `SWISH_Score` descending, then add
`GOAT_Rank = 1, 2, ...` by position and the constant `swish_version`
column. -/
def calculate_swish_score (players : List Player) : List RankedPlayer :=
  let sorted := List.insertionSort swishGE (players.map scorePlayer)
  sorted.enum.map (fun p =>
    { scored := p.2
      goatRank := (p.1 : ℤ) + 1
      swishVersion := "2.1" })

end SwishV2

namespace SwishV1

/-! Era assignment of `swish_score_calculator.py` (class
`SwishScoreCalculator`, `get_player_era`): keyed on the start year alone
against the era year ranges, with exact-name fallback lists. -/

/-- The `self.eras` dictionary, in insertion order. -/
def eras : List (Era × ℚ × ℚ) :=
  [(.preMerger, 1946, 1975),
   (.earlyModern, 1976, 1984),
   (.goldenAge, 1985, 1999),
   (.postJordan, 2000, 2009),
   (.modern, 2010, 2024)]

/-- The columns of the player row that `get_player_era` reads. -/
structure PlayerV1 where
  name : String
  startYear : Option ℚ
  /-- The career end year is present in the player data but never read by
  `get_player_era`, which keys on the start year alone. -/
  endYear : Option ℚ

/-- `get_player_era`: with a start year, the first era whose year range
contains it (else `'modern'`); without one, exact-name membership lists
with `'modern'` as default. -/
def get_player_era (p : PlayerV1) : Era :=
  match p.startYear with
  | some y =>
    match eras.find? (fun t => decide (t.2.1 ≤ y) && decide (y ≤ t.2.2)) with
    | some t => t.1
    | none => .modern
  | none =>
    if p.name ∈ ["Bill Russell", "Wilt Chamberlain", "Jerry West",
        "Oscar Robertson", "Elgin Baylor"] then .preMerger
    else if p.name ∈ ["Magic Johnson", "Larry Bird", "Julius Erving",
        "Moses Malone"] then .earlyModern
    else if p.name ∈ ["Michael Jordan", "Hakeem Olajuwon", "Karl Malone",
        "David Robinson"] then .goldenAge
    else if p.name ∈ ["Kobe Bryant", "Tim Duncan", "Shaquille O\x27Neal",
        "Allen Iverson"] then .postJordan
    else .modern

end SwishV1

/-! ### Specification-side formulations

Definitions below follow the wording of the specification (not the source);
they exist to be compared with the embedded code. -/

/-- Spec wording (C9): the era bucket determined solely by the career
midpoint against the fixed thresholds 1976/1985/2000/2010. -/
def eraByMidpointSpec (careerMid : ℚ) : Era :=
  if careerMid < 1976 then .preMerger
  else if careerMid < 1985 then .earlyModern
  else if careerMid < 2000 then .goldenAge
  else if careerMid < 2010 then .postJordan
  else .modern

/-- Spec wording (C3): fraction of OTHER entities (excluding the entity
itself; entities are rows keyed by team name) strictly worse on the raw
defensive metric (higher `AdjDE` is worse), scaled to 0-100. -/
def specDefPercentileOthers (data : List FinalModelV3.TeamRow)
    (row : FinalModelV3.TeamRow) : ℚ :=
  ((data.filter (fun r => r.team ≠ row.team ∧ row.adjDE < r.adjDE)).length : ℚ) /
    ((data.filter (fun r => r.team ≠ row.team)).length : ℚ) * 100

/-- The base percentile the code actually computes for the defensive metric
(C3 amended): fraction of ALL entities strictly worse, scaled to 0-100. -/
def specDefPercentileAll (data : List FinalModelV3.TeamRow)
    (row : FinalModelV3.TeamRow) : ℚ :=
  ((data.filter (fun r => row.adjDE < r.adjDE)).length : ℚ) / (data.length : ℚ) * 100

/-- The base percentile for the offensive metric of
`final_predictive_model.py` (C3 amended): fraction of ALL entities with
strictly lower `AdjOE`, scaled to 0-100. -/
def specOffPercentileAll (data : List FinalPredictiveModel.TeamRow)
    (row : FinalPredictiveModel.TeamRow) : ℚ :=
  ((data.filter (fun r => r.adjOE < row.adjOE)).length : ℚ) / (data.length : ℚ) * 100

/-- The base percentile for the experience metric of
`final_predictive_model.py` (C3 amended): fraction of ALL entities with
strictly lower `Experience`, scaled to 0-100. -/
def specExpPercentileAll (data : List FinalPredictiveModel.TeamRow)
    (row : FinalPredictiveModel.TeamRow) : ℚ :=
  ((data.filter (fun r => r.experience < row.experience)).length : ℚ) /
    (data.length : ℚ) * 100

/-- Whether a player name matches any of the five hard-coded substring
lists of `SwishScoreCalculatorV2.assign_player_eras`. -/
def matchesAnyV2List (name : String) : Bool :=
  ["Russell", "Chamberlain", "Robertson", "West", "Baylor"].any
      (fun n => strContains name n) ||
    ["Kareem", "Erving", "Moses"].any (fun n => strContains name n) ||
    ["Jordan", "Magic", "Bird", "Hakeem", "Barkley", "Malone", "Stockton"].any
      (fun n => strContains name n) ||
    ["Duncan", "Kobe", "Shaq", "Garnett", "Dirk", "Nash", "Iverson"].any
      (fun n => strContains name n) ||
    ["LeBron", "Durant", "Curry", "Giannis", "Kawhi", "Harden", "Chris Paul"].any
      (fun n => strContains name n)

/-! ### Concrete inputs used by witnesses and counterexamples -/

/-- A mid-table team (no bonus thresholds hit). -/
def tAtlantis : FinalModelV3.TeamRow :=
  { team := "Atlantis", conference := "XC", adjEM := 0, adjEMRank := 30,
    adjOE := 100, adjOERank := 30, adjDE := 90, adjDERank := 30,
    experience := 2, offTO := 17, defTO := 17, turnoverMargin := 0 }

/-- A team with exactly the same statistics as `tAtlantis`. -/
def tBorealis : FinalModelV3.TeamRow :=
  { team := "Borealis", conference := "XC", adjEM := 0, adjEMRank := 30,
    adjOE := 100, adjOERank := 30, adjDE := 90, adjDERank := 30,
    experience := 2, offTO := 17, defTO := 17, turnoverMargin := 0 }

/-- Two teams with identical statistics (and hence identical final scores)
under the V3 model. -/
def dataC1 : List FinalModelV3.TeamRow := [tAtlantis, tBorealis]

/-- A team with the better (lower) defensive efficiency of `dataC3`. -/
def tAvalon : FinalModelV3.TeamRow :=
  { team := "Avalon", conference := "XC", adjEM := 0, adjEMRank := 50,
    adjOE := 0, adjOERank := 50, adjDE := 90, adjDERank := 50,
    experience := 2, offTO := 17, defTO := 17, turnoverMargin := 0 }

/-- A team with the worse (higher) defensive efficiency of `dataC3`. -/
def tBrigadoon : FinalModelV3.TeamRow :=
  { team := "Brigadoon", conference := "XC", adjEM := 0, adjEMRank := 60,
    adjOE := 0, adjOERank := 60, adjDE := 100, adjDERank := 60,
    experience := 2, offTO := 17, defTO := 17, turnoverMargin := 0 }

/-- Two teams with distinct defensive efficiencies and no bonus-triggering
ranks. -/
def dataC3 : List FinalModelV3.TeamRow := [tAvalon, tBrigadoon]

/-- A six-factor-model team with no bonus-triggering rank and mid-range
experience (2.2). -/
def tCamelot : FinalPredictiveModel.TeamRow :=
  { team := "Camelot", conference := "XC", adjEM := 0, adjEMRank := 60,
    adjOE := 110, adjOERank := 60, adjDE := 95, adjDERank := 60,
    experience := 2.2, tempoRank := 150 }

/-- A second six-factor-model team. -/
def tDelphi : FinalPredictiveModel.TeamRow :=
  { team := "Delphi", conference := "XC", adjEM := 0, adjEMRank := 70,
    adjOE := 100, adjOERank := 70, adjDE := 99, adjDERank := 70,
    experience := 1.8, tempoRank := 200 }

/-- Two teams for the six-factor model. -/
def dataC3F : List FinalPredictiveModel.TeamRow := [tCamelot, tDelphi]

/-- A player row with every raw stat zero (era `modern`, both career years
missing). -/
def zeroPlayer : SwishV2.Player :=
  { name := "Zed", careerStart := none, careerEnd := none, championships := 0
    era := .modern, peakPpg := 0, careerPer := 0, careerGames := 0
    careerWs := 0, mvpShares := 0, careerVorp := 0, careerPpg := 0
    careerRpg := 0, careerApg := 0, primaryPosition := "F", finalsMvp := 0
    playoffPpg := 0, playoffG := 0, mvp := 0, allNbaFirst := 0
    allNbaSecond := 0, allNbaThird := 0, allStar := 0, dpoy := 0
    allDefensiveFirst := 0, allDefensiveSecond := 0, stealsLeader := 0
    blocksLeader := 0, scoringTitles := 0, careerTsPct := 0
    careerStlPg := 0, careerBlkPg := 0, careerDrbPg := 0
    seasonsPlayed := 0, careerMpg := 0 }

/-- A career journeyman: PER 5, no accolades. -/
def pBad : SwishV2.Player := { zeroPlayer with careerPer := 5 }

/-- A v2 player with both career years present (midpoint 1985). -/
def pV2a : SwishV2.Player :=
  { zeroPlayer with careerStart := some 1980, careerEnd := some 1990 }

/-- A v2 player with no career years and a name matching no era list. -/
def pV2b : SwishV2.Player := { zeroPlayer with name := "Zz" }

/-- A v1 player whose start year (1974) and end year (1990) straddle the
1976 merger: career midpoint 1982. -/
def pV1mid : SwishV1.PlayerV1 :=
  { name := "Overlap Pete", startYear := some 1974, endYear := some 1990 }

/-- Two v1 players sharing a start year but nothing else. -/
def pV1a : SwishV1.PlayerV1 := { name := "Alpha One", startYear := some 2005, endYear := none }

/-- See `pV1a`. -/
def pV1b : SwishV1.PlayerV1 :=
  { name := "Beta Two", startYear := some 2005, endYear := some 2012 }

/-- A custom weight configuration whose total (1.0005) differs from 1 by
less than the 0.001 renormalization tolerance. -/
def wBad : List (String × ℚ) := [("adjusted_efficiency", 1.0005)]

/-! ### Helper lemmas -/

namespace FinalModelV3

theorem length_generate_rankings_v3 (data : List TeamRow) :
    (generate_rankings data).length = data.length := by
  simp [generate_rankings, List.enum_length]

theorem generate_rankings_get_v3 (data : List TeamRow)
    (i : Fin (generate_rankings data).length) :
    (generate_rankings data).get i =
      { row := (List.insertionSort scoreGE (data.map (scoreRow data))).get
          ⟨i.1, by simpa [length_generate_rankings_v3, List.length_insertionSort] using i.2⟩
        finalRank := (i.1 : ℤ) + 1
        rankChange := ((List.insertionSort scoreGE (data.map (scoreRow data))).get
          ⟨i.1, by simpa [length_generate_rankings_v3, List.length_insertionSort] using i.2⟩).kenpomRank
            - ((i.1 : ℤ) + 1) } := by
  simp [generate_rankings, List.getElem_enum]

end FinalModelV3

namespace FinalPredictiveModel

theorem length_generate_rankings_fpm (playerStatsTeams : List String)
    (data : List TeamRow) :
    (generate_rankings playerStatsTeams data).length = data.length := by
  simp [generate_rankings, List.enum_length]

theorem generate_rankings_get_fpm (playerStatsTeams : List String)
    (data : List TeamRow)
    (i : Fin (generate_rankings playerStatsTeams data).length) :
    (generate_rankings playerStatsTeams data).get i =
      { row := (List.insertionSort scoreGE
          (data.map (scoreRow playerStatsTeams data))).get
          ⟨i.1, by simpa [length_generate_rankings_fpm, List.length_insertionSort] using i.2⟩
        finalRank := (i.1 : ℤ) + 1
        rankChange := ((List.insertionSort scoreGE
          (data.map (scoreRow playerStatsTeams data))).get
          ⟨i.1, by simpa [length_generate_rankings_fpm, List.length_insertionSort] using i.2⟩).kenpomRank
            - ((i.1 : ℤ) + 1) } := by
  simp [generate_rankings, List.getElem_enum]

end FinalPredictiveModel

namespace SwishV2

theorem length_calculate_swish_score (players : List Player) :
    (calculate_swish_score players).length = players.length := by
  simp [calculate_swish_score, List.enum_length]

theorem calculate_swish_score_get (players : List Player)
    (i : Fin (calculate_swish_score players).length) :
    (calculate_swish_score players).get i =
      { scored := (List.insertionSort swishGE (players.map scorePlayer)).get
          ⟨i.1, by simpa [length_calculate_swish_score, List.length_insertionSort] using i.2⟩
        goatRank := (i.1 : ℤ) + 1
        swishVersion := "2.1" } := by
  simp [calculate_swish_score, List.getElem_enum]

end SwishV2

theorem sum_map_div (l : List ℚ) (t : ℚ) :
    (l.map (fun x => x / t)).sum = l.sum / t := by
  induction l with
  | nil => simp
  | cons a l ih => simp [List.sum_cons, ih, add_div]

theorem weightsSum_map_div (ws : List (String × ℚ)) (t : ℚ) :
    PredictiveModel.weightsSum (ws.map (fun p => (p.1, p.2 / t))) =
      PredictiveModel.weightsSum ws / t := by
  have h : (ws.map (fun p => (p.1, p.2 / t))).map Prod.snd =
      (ws.map Prod.snd).map (fun x => x / t) := by
    rw [List.map_map, List.map_map]
    rfl
  simp only [PredictiveModel.weightsSum, h, sum_map_div]

theorem calculate_era_adjusted_stat_bounds (s : ℚ) (n : SwishV2.StatName) (e : Era) :
    0 ≤ SwishV2.calculate_era_adjusted_stat s n e ∧
      SwishV2.calculate_era_adjusted_stat s n e ≤ 100 := by
  rcases n <;> simp only [SwishV2.calculate_era_adjusted_stat] <;> split_ifs <;>
    constructor <;>
    first
      | norm_num
      | exact le_max_left _ _
      | exact max_le (by norm_num) (min_le_left _ _)

/-- Bounds for the bonus/penalty clamp pattern of
`calculate_turnover_margin`. -/
theorem turnover_clamp_bounds (base margin : ℚ) (hb0 : 0 ≤ base) (hb1 : base ≤ 100) :
    0 ≤ (if margin < -3.0 then
          max 0 ((if margin > 5.0 then min 100 (base + 10)
                  else if margin > 3.0 then min 100 (base + 5) else base) - 10)
         else (if margin > 5.0 then min 100 (base + 10)
               else if margin > 3.0 then min 100 (base + 5) else base)) ∧
      (if margin < -3.0 then
          max 0 ((if margin > 5.0 then min 100 (base + 10)
                  else if margin > 3.0 then min 100 (base + 5) else base) - 10)
         else (if margin > 5.0 then min 100 (base + 10)
               else if margin > 3.0 then min 100 (base + 5) else base)) ≤ 100 := by
  have m10 := min_le_left (100 : ℚ) (base + 10)
  have m5 := min_le_left (100 : ℚ) (base + 5)
  constructor <;> split_ifs <;>
    first
      | exact le_max_left _ _
      | exact le_min (by norm_num) (by linarith)
      | exact min_le_left _ _
      | exact max_le (by norm_num) (by linarith)
      | linarith

/-! ### The claims -/

/-- C7: re-running the V3 load-score-rank pipeline on unchanged input tables
yields an identical output table (same scores, ranks and row order), and the
momentum sub-score of `weighted_model_v2.py` is likewise a function of its
inputs alone: the pipeline is deterministic. -/
theorem C7_pipeline_deterministic :
    (∀ (rankings : List FinalModelV3.RankingsRow)
       (personnel : List FinalModelV3.PersonnelRow)
       (fourFactors : List FinalModelV3.FourFactorsRow)
       (out1 out2 : List FinalModelV3.RankedRow),
       out1 = FinalModelV3.run_pipeline rankings personnel fourFactors →
       out2 = FinalModelV3.run_pipeline rankings personnel fourFactors →
       out1 = out2) ∧
    (∀ (rankings : List WeightedModelV2.RankingsRow) (teamName : String)
       (m1 m2 : ℚ),
       m1 = WeightedModelV2.calculate_momentum_score rankings teamName →
       m2 = WeightedModelV2.calculate_momentum_score rankings teamName →
       m1 = m2) := by
  constructor
  · intro _ _ _ _ _ h1 h2
    rw [h1, h2]
  · intro _ _ _ _ h1 h2
    rw [h1, h2]

/-- Witness for C7: two runs on a concrete (empty) table agree. -/
theorem C7_witness :
    FinalModelV3.run_pipeline [] [] [] = FinalModelV3.run_pipeline [] [] [] :=
  C7_pipeline_deterministic.1 [] [] [] _ _ rfl rfl

/-- C10: `calculate_swish_score` only adds columns and reorders rows: the
`base` (pre-existing columns) projection of its output is a permutation of
the input player table, so every column value that existed before the call
is unchanged for every player. -/
theorem C10_swish_frame (players : List SwishV2.Player) :
    ((SwishV2.calculate_swish_score players).map (fun r => r.scored.base)).Perm
      players := by
  have key : ((SwishV2.calculate_swish_score players).map (fun r => r.scored.base)) =
      (List.insertionSort SwishV2.swishGE (players.map SwishV2.scorePlayer)).map
        (fun s => s.base) := by
    unfold SwishV2.calculate_swish_score
    rw [List.map_map]
    rw [show ((fun (r : SwishV2.RankedPlayer) => r.scored.base) ∘
        (fun p : ℕ × SwishV2.ScoredPlayer =>
          ({ scored := p.2, goatRank := (p.1 : ℤ) + 1,
             swishVersion := "2.1" } : SwishV2.RankedPlayer))) =
      ((fun (s : SwishV2.ScoredPlayer) => s.base) ∘ Prod.snd) from rfl]
    rw [← List.map_map, List.enum_map_snd]
  rw [key]
  refine ((List.perm_insertionSort SwishV2.swishGE
    (players.map SwishV2.scorePlayer)).map (fun s => s.base)).trans ?_
  rw [List.map_map]
  rw [show ((fun (s : SwishV2.ScoredPlayer) => s.base) ∘ SwishV2.scorePlayer) =
    id from rfl, List.map_id]

/-- C5: in both cited ranking outputs, rank order is monotone with respect
to the final weighted score: whenever one row's assigned rank (`Final_Rank`
in `final_model_v3.py`, `GOAT_Rank` in `swish_score_calculator_v2.py`) is
strictly smaller than another's, its final score (`Final_Score` resp.
`SWISH_Score`) is at least as large. -/
theorem C5_rank_monotone :
    (∀ (data : List FinalModelV3.TeamRow) (r1 r2 : FinalModelV3.RankedRow),
       r1 ∈ FinalModelV3.generate_rankings data →
       r2 ∈ FinalModelV3.generate_rankings data →
       r1.finalRank < r2.finalRank →
       r2.row.finalScore ≤ r1.row.finalScore) ∧
    (∀ (players : List SwishV2.Player) (r1 r2 : SwishV2.RankedPlayer),
       r1 ∈ SwishV2.calculate_swish_score players →
       r2 ∈ SwishV2.calculate_swish_score players →
       r1.goatRank < r2.goatRank →
       r2.scored.swishScore ≤ r1.scored.swishScore) := by
  constructor
  · intro data r1 r2 h1 h2 hlt
    obtain ⟨i, hi⟩ := List.mem_iff_get.mp h1
    obtain ⟨j, hj⟩ := List.mem_iff_get.mp h2
    have ei := FinalModelV3.generate_rankings_get_v3 data i
    have ej := FinalModelV3.generate_rankings_get_v3 data j
    rw [hi] at ei
    rw [hj] at ej
    rw [ei, ej] at hlt ⊢
    dsimp only at hlt ⊢
    have hij : i.1 < j.1 := by omega
    exact (List.sorted_insertionSort FinalModelV3.scoreGE
      (data.map (FinalModelV3.scoreRow data))).rel_get_of_lt (Fin.mk_lt_mk.mpr hij)
  · intro players r1 r2 h1 h2 hlt
    obtain ⟨i, hi⟩ := List.mem_iff_get.mp h1
    obtain ⟨j, hj⟩ := List.mem_iff_get.mp h2
    have ei := SwishV2.calculate_swish_score_get players i
    have ej := SwishV2.calculate_swish_score_get players j
    rw [hi] at ei
    rw [hj] at ej
    rw [ei, ej] at hlt ⊢
    dsimp only at hlt ⊢
    have hij : i.1 < j.1 := by omega
    exact (List.sorted_insertionSort SwishV2.swishGE
      (players.map SwishV2.scorePlayer)).rel_get_of_lt (Fin.mk_lt_mk.mpr hij)

/-- Witness for C5 at a concrete two-team table and a concrete two-player
table. -/
theorem C5_witness :
    (((FinalModelV3.generate_rankings dataC1).get
        ⟨1, by norm_num [FinalModelV3.length_generate_rankings_v3, dataC1]⟩).row.finalScore ≤
      ((FinalModelV3.generate_rankings dataC1).get
        ⟨0, by norm_num [FinalModelV3.length_generate_rankings_v3, dataC1]⟩).row.finalScore) ∧
    (((SwishV2.calculate_swish_score [zeroPlayer, pBad]).get
        ⟨1, by norm_num [SwishV2.length_calculate_swish_score]⟩).scored.swishScore ≤
      ((SwishV2.calculate_swish_score [zeroPlayer, pBad]).get
        ⟨0, by norm_num [SwishV2.length_calculate_swish_score]⟩).scored.swishScore) :=
  ⟨C5_rank_monotone.1 dataC1 _ _ (List.get_mem _ _ _) (List.get_mem _ _ _)
    (by rw [FinalModelV3.generate_rankings_get_v3, FinalModelV3.generate_rankings_get_v3]
        norm_num),
   C5_rank_monotone.2 [zeroPlayer, pBad] _ _ (List.get_mem _ _ _) (List.get_mem _ _ _)
    (by rw [SwishV2.calculate_swish_score_get, SwishV2.calculate_swish_score_get]
        norm_num)⟩

/-- C6: in both cited models, the reported rank delta of every output row
equals its external reference (KenPom) rank minus the newly assigned rank. -/
theorem C6_rank_delta :
    (∀ (data : List FinalModelV3.TeamRow) (r : FinalModelV3.RankedRow),
       r ∈ FinalModelV3.generate_rankings data →
       r.rankChange = r.row.kenpomRank - r.finalRank) ∧
    (∀ (playerStatsTeams : List String) (data : List FinalPredictiveModel.TeamRow)
       (r : FinalPredictiveModel.RankedRow),
       r ∈ FinalPredictiveModel.generate_rankings playerStatsTeams data →
       r.rankChange = r.row.kenpomRank - r.finalRank) := by
  constructor
  · intro data r hr
    obtain ⟨i, hi⟩ := List.mem_iff_get.mp hr
    rw [← hi, FinalModelV3.generate_rankings_get_v3]
  · intro playerStatsTeams data r hr
    obtain ⟨i, hi⟩ := List.mem_iff_get.mp hr
    rw [← hi, FinalPredictiveModel.generate_rankings_get_fpm]

/-- Witness for C6 at concrete tables for both models. -/
theorem C6_witness :
    (((FinalModelV3.generate_rankings dataC1).get
        ⟨0, by norm_num [FinalModelV3.length_generate_rankings_v3, dataC1]⟩).rankChange =
      ((FinalModelV3.generate_rankings dataC1).get
        ⟨0, by norm_num [FinalModelV3.length_generate_rankings_v3, dataC1]⟩).row.kenpomRank -
      ((FinalModelV3.generate_rankings dataC1).get
        ⟨0, by norm_num [FinalModelV3.length_generate_rankings_v3, dataC1]⟩).finalRank) ∧
    (((FinalPredictiveModel.generate_rankings [] dataC3F).get
        ⟨0, by norm_num [FinalPredictiveModel.length_generate_rankings_fpm, dataC3F]⟩).rankChange =
      ((FinalPredictiveModel.generate_rankings [] dataC3F).get
        ⟨0, by norm_num [FinalPredictiveModel.length_generate_rankings_fpm, dataC3F]⟩).row.kenpomRank -
      ((FinalPredictiveModel.generate_rankings [] dataC3F).get
        ⟨0, by norm_num [FinalPredictiveModel.length_generate_rankings_fpm, dataC3F]⟩).finalRank) :=
  ⟨C6_rank_delta.1 dataC1 _ (List.get_mem _ _ _),
   C6_rank_delta.2 [] dataC3F _ (List.get_mem _ _ _)⟩

/-- C1 (amended): both cited scripts assign ranks ordinally by position
after the descending sort: the k-th output row (0-based) has rank k+1.
Hence ranks are consecutive 1..n with no gaps, but rows with equal final
scores receive distinct consecutive ranks (in unspecified tie order), not
the same dense rank. -/
theorem C1_rank_is_position :
    (∀ (data : List FinalModelV3.TeamRow)
       (i : Fin (FinalModelV3.generate_rankings data).length),
       ((FinalModelV3.generate_rankings data).get i).finalRank = (i.1 : ℤ) + 1) ∧
    (∀ (players : List SwishV2.Player)
       (i : Fin (SwishV2.calculate_swish_score players).length),
       ((SwishV2.calculate_swish_score players).get i).goatRank = (i.1 : ℤ) + 1) := by
  constructor
  · intro data i
    rw [FinalModelV3.generate_rankings_get_v3]
  · intro players i
    rw [SwishV2.calculate_swish_score_get]

/-- Counterexample for C1 as stated: in `dataC1` the two teams have equal
final scores yet receive distinct ranks (1 and 2), so equal scores do not
receive the same (dense) rank. -/
theorem C1_counterexample :
    ∃ r1 ∈ FinalModelV3.generate_rankings dataC1,
      ∃ r2 ∈ FinalModelV3.generate_rankings dataC1,
        r1.row.finalScore = r2.row.finalScore ∧ r1.finalRank ≠ r2.finalRank := by
  have hlen : (FinalModelV3.generate_rankings dataC1).length = 2 := by
    norm_num [FinalModelV3.length_generate_rankings_v3, dataC1]
  refine ⟨(FinalModelV3.generate_rankings dataC1).get ⟨0, by omega⟩,
    List.get_mem _ _ _,
    (FinalModelV3.generate_rankings dataC1).get ⟨1, by omega⟩,
    List.get_mem _ _ _, ?_, ?_⟩
  · rw [FinalModelV3.generate_rankings_get_v3, FinalModelV3.generate_rankings_get_v3]
    dsimp only
    have hAA : ("Atlantis" == "Atlantis") = true := by simp
    have hAB : ("Atlantis" == "Borealis") = false := by simp
    have hBB : ("Borealis" == "Borealis") = true := by simp
    norm_num [hAA, hAB, hBB, dataC1, tAtlantis, tBorealis, FinalModelV3.scoreRow,
      FinalModelV3.calculate_total_score, FinalModelV3.calculate_defensive_rating,
      FinalModelV3.calculate_offensive_rating, FinalModelV3.calculate_recent_performance,
      FinalModelV3.recentPerformanceOfRank, FinalModelV3.calculate_experience,
      FinalModelV3.calculate_turnover_margin, FinalModelV3.scoreGE,
      List.insertionSort, List.orderedInsert, List.filter,
      List.find?_cons_of_pos, List.find?_cons_of_neg,
      List.get_eq_getElem, List.getElem_cons_zero, List.getElem_cons_succ]
  · rw [FinalModelV3.generate_rankings_get_v3, FinalModelV3.generate_rankings_get_v3]
    dsimp only
    norm_num

/-- Witness for C1 (amended) at concrete inputs for both models. -/
theorem C1_witness :
    ((FinalModelV3.generate_rankings dataC1).get
      ⟨0, by norm_num [FinalModelV3.length_generate_rankings_v3, dataC1]⟩).finalRank =
        ((0 : ℕ) : ℤ) + 1 ∧
    ((SwishV2.calculate_swish_score [zeroPlayer]).get
      ⟨0, by norm_num [SwishV2.length_calculate_swish_score]⟩).goatRank =
        ((0 : ℕ) : ℤ) + 1 :=
  ⟨C1_rank_is_position.1 dataC1 _, C1_rank_is_position.2 [zeroPlayer] _⟩

/-- C2 (amended): the turnover-margin sub-score of `final_model_v3.py` does
lie in [0, 100] for every nonempty table, and every SWISH peak-dominance
sub-score is bounded above by 100; the lower bound 0 fails for peak
dominance (see the counterexample). -/
theorem C2_subscore_bounds :
    (∀ (data : List FinalModelV3.TeamRow) (row : FinalModelV3.TeamRow),
       0 < data.length →
       0 ≤ FinalModelV3.calculate_turnover_margin data row ∧
         FinalModelV3.calculate_turnover_margin data row ≤ 100) ∧
    (∀ p : SwishV2.Player, SwishV2.peakDominance p ≤ 100) := by
  constructor
  · intro data row hlen
    have hpos : (0 : ℚ) < (data.length : ℚ) := by exact_mod_cast hlen
    have hfil : ((data.filter
        (fun r => r.turnoverMargin < row.turnoverMargin)).length : ℚ) ≤
        (data.length : ℚ) := by
      exact_mod_cast List.length_filter_le _ _
    have hb0 : 0 ≤ ((data.filter
        (fun r => r.turnoverMargin < row.turnoverMargin)).length : ℚ) /
        (data.length : ℚ) * 100 := by positivity
    have hb1 : ((data.filter
        (fun r => r.turnoverMargin < row.turnoverMargin)).length : ℚ) /
        (data.length : ℚ) * 100 ≤ 100 := by
      have h := (div_le_one hpos).mpr hfil
      nlinarith
    exact turnover_clamp_bounds _ row.turnoverMargin hb0 hb1
  · intro p
    have ha := calculate_era_adjusted_stat_bounds p.peakPpg .ppg p.era
    have h1 : min 100 ((p.careerPer - 15) / 16 * 100) ≤ 100 := min_le_left _ _
    have h2 : min 100 ((if p.careerGames > 0 then p.careerWs / p.careerGames * 48
        else 0) / 0.250 * 100) ≤ 100 := min_le_left _ _
    have h3 : min 100 (p.mvpShares / 5.0 * 100) ≤ 100 := min_le_left _ _
    simp only [SwishV2.peakDominance]
    linarith [ha.1, ha.2]

/-- Counterexample for C2 as stated: a player with career PER 5 and no other
credentials gets a NEGATIVE peak-dominance sub-score (-18.75), outside
[0, 100]. -/
theorem C2_counterexample : SwishV2.peakDominance pBad < 0 := by
  norm_num [pBad, zeroPlayer, SwishV2.peakDominance,
    SwishV2.calculate_era_adjusted_stat, min_def]

/-- Witness for C2 (amended) at a concrete nonempty table. -/
theorem C2_witness :
    0 ≤ FinalModelV3.calculate_turnover_margin dataC1
        (dataC1.get ⟨0, by norm_num [dataC1]⟩) ∧
      FinalModelV3.calculate_turnover_margin dataC1
        (dataC1.get ⟨0, by norm_num [dataC1]⟩) ≤ 100 :=
  C2_subscore_bounds.1 dataC1 _ (by norm_num [dataC1])

/-- C3 (amended): before any bonus or penalty, the percentile computed by
the cited sub-score calculators is the fraction of ALL entities (the row
itself included in the denominator) strictly worse on the raw metric,
scaled to 0-100 — not the fraction of other entities. -/
theorem C3_percentile_base :
    (∀ (data : List FinalModelV3.TeamRow) (row : FinalModelV3.TeamRow),
       ¬ row.adjDERank ≤ 25 →
       FinalModelV3.calculate_defensive_rating data row =
         specDefPercentileAll data row) ∧
    (∀ (data : List FinalPredictiveModel.TeamRow)
       (row : FinalPredictiveModel.TeamRow),
       ¬ row.adjOERank ≤ 25 →
       FinalPredictiveModel.calculate_offensive_rating data row =
         specOffPercentileAll data row) ∧
    (∀ (data : List FinalPredictiveModel.TeamRow)
       (row : FinalPredictiveModel.TeamRow),
       2.0 ≤ row.experience → row.experience < 2.5 →
       FinalPredictiveModel.calculate_experience data row =
         specExpPercentileAll data row) := by
  refine ⟨?_, ?_, ?_⟩
  · intro data row h25
    have h10 : ¬ row.adjDERank ≤ 10 := by omega
    simp only [FinalModelV3.calculate_defensive_rating, specDefPercentileAll,
      if_neg h10, if_neg h25]
  · intro data row h25
    have h10 : ¬ row.adjOERank ≤ 10 := by omega
    simp only [FinalPredictiveModel.calculate_offensive_rating, specOffPercentileAll,
      if_neg h10, if_neg h25]
  · intro data row h2 h25
    have h3 : ¬ row.experience ≥ 3.0 := not_le.mpr (by linarith)
    have h25b : ¬ row.experience ≥ 2.5 := not_le.mpr h25
    have h15 : ¬ row.experience < 1.5 := not_lt.mpr (by linarith)
    have h20 : ¬ row.experience < 2.0 := not_lt.mpr h2
    simp only [FinalPredictiveModel.calculate_experience, specExpPercentileAll,
      if_neg h3, if_neg h25b, if_neg h15, if_neg h20]

/-- Counterexample for C3 as stated: with two teams, the better defense
scores 50 (1 strictly worse team out of 2 total), not 100 (1 strictly worse
team out of 1 OTHER team) as the claim's excluding-self reading requires. -/
theorem C3_counterexample :
    FinalModelV3.calculate_defensive_rating dataC3 tAvalon ≠
      specDefPercentileOthers dataC3 tAvalon := by
  have h1 : FinalModelV3.calculate_defensive_rating dataC3 tAvalon = 50 := by
    norm_num [FinalModelV3.calculate_defensive_rating, dataC3, tAvalon, tBrigadoon,
      List.filter_cons]
  have hq1 : ((90 : ℚ) < 100) := by norm_num
  have hq2 : ¬ ((90 : ℚ) < 90) := by norm_num
  have h2 : specDefPercentileOthers dataC3 tAvalon = 100 := by
    simp only [specDefPercentileOthers, dataC3, tAvalon, tBrigadoon, List.filter_cons]
    simp [hq1, hq2]
  rw [h1, h2]
  norm_num

/-- Witness for C3 (amended) at concrete rows with no bonus or penalty. -/
theorem C3_witness :
    (FinalModelV3.calculate_defensive_rating dataC3 tAvalon =
      specDefPercentileAll dataC3 tAvalon) ∧
    (FinalPredictiveModel.calculate_offensive_rating dataC3F tCamelot =
      specOffPercentileAll dataC3F tCamelot) ∧
    (FinalPredictiveModel.calculate_experience dataC3F tCamelot =
      specExpPercentileAll dataC3F tCamelot) :=
  ⟨C3_percentile_base.1 dataC3 tAvalon (by norm_num [tAvalon]),
   C3_percentile_base.2.1 dataC3F tCamelot (by norm_num [tCamelot]),
   C3_percentile_base.2.2 dataC3F tCamelot (by norm_num [tCamelot])
     (by norm_num [tCamelot])⟩

/-- C4 (amended): the three scripts that renormalize do so only when the
configured total differs from 1 by more than 0.001, leaving the final
weights within 0.001 of summing to 1 (exactly 1 when renormalization ran);
all other model scripts hard-code weights that sum to exactly 1 and contain
no renormalization code. -/
theorem C4_weight_normalization :
    (∀ ws : List (String × ℚ), PredictiveModel.weightsSum ws ≠ 0 →
       |PredictiveModel.weightsSum (PredictiveModel.initWeights (some ws)) - 1| ≤
         0.001) ∧
    (∀ ws : List (String × ℚ), PredictiveModel.weightsSum ws ≠ 0 →
       |PredictiveModel.weightsSum (WeightedModelV2.initWeights (some ws)) - 1| ≤
         0.001) ∧
    (∀ b r : ℚ, b + r ≠ 0 →
       |((HybridModel.initWeights b r).1 + (HybridModel.initWeights b r).2) - 1| ≤
         0.001) ∧
    (PredictiveModel.weightsSum FinalModelV3.weights = 1 ∧
     PredictiveModel.weightsSum FinalPredictiveModel.weights = 1 ∧
     PredictiveModel.weightsSum PredictiveModel.defaultWeights = 1 ∧
     PredictiveModel.weightsSum WeightedModelV2.defaultWeights = 1 ∧
     PredictiveModel.weightsSum OtherModelWeights.defenseFocused = 1 ∧
     PredictiveModel.weightsSum OtherModelWeights.experienceEnhanced = 1 ∧
     PredictiveModel.weightsSum OtherModelWeights.finalModelV2 = 1 ∧
     PredictiveModel.weightsSum OtherModelWeights.finalPredictiveClean = 1) := by
  refine ⟨?_, ?_, ?_, ?_⟩
  · intro ws hne
    simp only [PredictiveModel.initWeights, Option.getD_some]
    by_cases hc : |PredictiveModel.weightsSum ws - 1| > 0.001
    · rw [if_pos hc, weightsSum_map_div, div_self hne]
      norm_num
    · rw [if_neg hc]
      exact not_lt.mp hc
  · intro ws hne
    simp only [WeightedModelV2.initWeights, Option.getD_some]
    by_cases hc : |PredictiveModel.weightsSum ws - 1| > 0.001
    · rw [if_pos hc, weightsSum_map_div, div_self hne]
      norm_num
    · rw [if_neg hc]
      exact not_lt.mp hc
  · intro b r hne
    simp only [HybridModel.initWeights]
    by_cases hc : |b + r - 1| > 0.001
    · rw [if_pos hc]
      dsimp only
      rw [div_add_div_same, div_self hne]
      norm_num
    · rw [if_neg hc]
      dsimp only
      exact not_lt.mp hc
  · refine ⟨?_, ?_, ?_, ?_, ?_, ?_, ?_, ?_⟩ <;>
      norm_num [PredictiveModel.weightsSum, FinalModelV3.weights,
        FinalPredictiveModel.weights, PredictiveModel.defaultWeights,
        WeightedModelV2.defaultWeights, OtherModelWeights.defenseFocused,
        OtherModelWeights.experienceEnhanced, OtherModelWeights.finalModelV2,
        OtherModelWeights.finalPredictiveClean]

/-- Counterexample for C4 as stated: a configured weight list summing to
1.0005 is within the 0.001 tolerance, so `predictive_model.py` does NOT
renormalize it, and the weights used afterwards do not sum to 1.0. -/
theorem C4_counterexample :
    PredictiveModel.weightsSum wBad ≠ 1 ∧
    PredictiveModel.initWeights (some wBad) = wBad ∧
    PredictiveModel.weightsSum (PredictiveModel.initWeights (some wBad)) ≠ 1 := by
  have hsum : PredictiveModel.weightsSum wBad = 1.0005 := by
    norm_num [PredictiveModel.weightsSum, wBad]
  have habs : |PredictiveModel.weightsSum wBad - 1| = 0.0005 := by
    rw [hsum, show (1.0005 : ℚ) - 1 = 0.0005 by norm_num]
    exact abs_of_nonneg (by norm_num)
  have hc : ¬ |PredictiveModel.weightsSum wBad - 1| > 0.001 := by
    rw [habs]
    norm_num
  have hinit : PredictiveModel.initWeights (some wBad) = wBad := by
    simp only [PredictiveModel.initWeights, Option.getD_some]
    rw [if_neg hc]
  refine ⟨?_, hinit, ?_⟩
  · rw [hsum]
    norm_num
  · rw [hinit, hsum]
    norm_num

/-- Witness for C4 (amended) at the default weight configuration. -/
theorem C4_witness :
    |PredictiveModel.weightsSum
        (PredictiveModel.initWeights (some PredictiveModel.defaultWeights)) - 1| ≤
      0.001 :=
  C4_weight_normalization.1 PredictiveModel.defaultWeights
    (by norm_num [PredictiveModel.weightsSum, PredictiveModel.defaultWeights])

/-- C8: the V3 loader joins its input tables with an inner join on the
team-name key (a team appears in the merged table exactly when it appears in
all three inputs), and `predictive_model.py`'s loader completes when an
optional game file is missing, recording both game tables as absent, while a
missing required file fails the load. -/
theorem C8_loader :
    (∀ (rankings : List FinalModelV3.RankingsRow)
       (personnel : List FinalModelV3.PersonnelRow)
       (fourFactors : List FinalModelV3.FourFactorsRow) (t : String),
       (∃ row ∈ FinalModelV3.load_all_data rankings personnel fourFactors,
          row.team = t) ↔
       ((∃ a ∈ rankings, a.team = t) ∧ (∃ b ∈ personnel, b.team = t) ∧
        (∃ c ∈ fourFactors, c.team = t))) ∧
    (∀ {α β γ : Type} (r : List α) (f : List β) (ts : List γ)
       (upsets : Option (List PredictiveModel.GameRow)),
       PredictiveModel.load_data (some r) (some f) (some ts) none upsets =
         some { rankings := r, fourFactors := f, tempoStats := ts,
                games := none, upsets := none }) ∧
    (∀ {α β γ : Type} (f : Option (List β)) (ts : Option (List γ))
       (g u : Option (List PredictiveModel.GameRow)),
       PredictiveModel.load_data (α := α) none f ts g u = none) := by
  refine ⟨?_, ?_, ?_⟩
  · intro rankings personnel fourFactors t
    constructor
    · rintro ⟨row, hrow, rfl⟩
      simp only [FinalModelV3.load_all_data, List.mem_flatMap, List.mem_map,
        List.mem_filter, beq_iff_eq] at hrow
      obtain ⟨rp, ⟨r, hr, p, ⟨hp, hpt⟩, rfl⟩, f, ⟨hf, hft⟩, rfl⟩ := hrow
      exact ⟨⟨r, hr, by simp [FinalModelV3.joinRow]⟩,
        ⟨p, hp, by simp [FinalModelV3.joinRow, hpt]⟩,
        ⟨f, hf, by simp [FinalModelV3.joinRow]; exact hft⟩⟩
    · rintro ⟨⟨r, hr, rfl⟩, ⟨p, hp, hpt⟩, ⟨f, hf, hft⟩⟩
      refine ⟨FinalModelV3.joinRow r p f, ?_, rfl⟩
      simp only [FinalModelV3.load_all_data, List.mem_flatMap, List.mem_map,
        List.mem_filter, beq_iff_eq]
      exact ⟨(r, p), ⟨r, hr, p, ⟨hp, hpt⟩, rfl⟩, f, ⟨hf, hft⟩, rfl⟩
  · intro α β γ r f ts upsets
    cases upsets <;> rfl
  · intro α β γ f ts g u
    rfl

/-- C9 (amended): in v2, with both career years present the era is the
career midpoint against the fixed thresholds, and with the start year
missing and no name-list match the era defaults to `modern`; in v1 the era
is determined solely by the START year (against the era year ranges), not
by the career midpoint. -/
theorem C9_era_assignment :
    (∀ (p : SwishV2.Player) (s e : ℚ), p.careerStart = some s →
       p.careerEnd = some e →
       SwishV2.get_player_era p = eraByMidpointSpec ((s + e) / 2)) ∧
    (∀ p : SwishV2.Player, p.careerStart = none →
       matchesAnyV2List p.name = false →
       SwishV2.get_player_era p = Era.modern) ∧
    (∀ (p q : SwishV1.PlayerV1) (y : ℚ), p.startYear = some y →
       q.startYear = some y →
       SwishV1.get_player_era p = SwishV1.get_player_era q) := by
  refine ⟨?_, ?_, ?_⟩
  · intro p s e hs he
    simp only [SwishV2.get_player_era, hs, he, eraByMidpointSpec]
  · intro p hnone hno
    simp only [matchesAnyV2List, Bool.or_eq_false_iff] at hno
    obtain ⟨⟨⟨⟨h1, h2⟩, h3⟩, h4⟩, h5⟩ := hno
    simp [SwishV2.get_player_era, hnone, h1, h2, h3, h4, h5]
  · intro p q y hp hq
    simp only [SwishV1.get_player_era, hp, hq]

/-- Counterexample for C9 as stated: a v1 player with both career years
present (1974-1990, midpoint 1982) is assigned `pre_merger` by
`swish_score_calculator.py` (which keys on the start year alone), while the
claimed midpoint thresholds give `early_modern`. -/
theorem C9_counterexample :
    SwishV1.get_player_era pV1mid = Era.preMerger ∧
    eraByMidpointSpec ((1974 + 1990) / 2) = Era.earlyModern ∧
    Era.preMerger ≠ Era.earlyModern := by
  refine ⟨?_, ?_, by decide⟩
  · simp only [SwishV1.get_player_era, pV1mid, SwishV1.eras]
    rw [List.find?_cons_of_pos _
      (by simp only [Bool.and_eq_true, decide_eq_true_eq]; norm_num)]
  · norm_num [eraByMidpointSpec]

/-- Witness for C9 (amended) at concrete players for all three parts. -/
theorem C9_witness :
    SwishV2.get_player_era pV2a = eraByMidpointSpec ((1980 + 1990) / 2) ∧
    SwishV2.get_player_era pV2b = Era.modern ∧
    SwishV1.get_player_era pV1a = SwishV1.get_player_era pV1b :=
  ⟨C9_era_assignment.1 pV2a 1980 1990 rfl rfl,
   C9_era_assignment.2.1 pV2b rfl (by decide),
   C9_era_assignment.2.2 pV1a pV1b 2005 rfl rfl⟩
